import Mathlib

/-!
# Verification of the bootstrap install-orchestration engine

Shallow embedding of `src/bootstrap.py`, a development-environment
bootstrapper.  The embedding models:

* the key/value config loader `load_env_file` (pure string parsing,
  modelled character-for-character after the Python code);
* the filesystem as a finite association list from absolute path strings
  to file contents (directories are implicit: a directory "exists" when
  some file lives under it, and `mkdir` is therefore a no-op in the
  model);
* external subprocesses via an oracle `Exec` supplying exit codes and
  filesystem effects, with every spawned command recorded in a trace;
* the install steps `ensure_prereqs`, `install_flutter`,
  `install_android_cmdline` and `install_android_packages`.
-/

namespace Bootstrap

/-! ## Python string primitives

`pyIsSpace` matches Python's `str.strip()` default character class.
`pyStripBy p l` drops characters satisfying `p` from both ends of `l`,
i.e. Python's `str.strip(chars)`. -/

def pyIsSpace (c : Char) : Bool :=
  c = ' ' || c = '\t' || c = '\n' || c = '\r' || c = Char.ofNat 11 || c = Char.ofNat 12

def pyStripBy (p : Char → Bool) (l : List Char) : List Char :=
  ((l.dropWhile p).reverse.dropWhile p).reverse

/-- Python `s.strip()` on a `String`. -/
def pyStripStr (s : String) : String :=
  ⟨pyStripBy pyIsSpace s.data⟩

/-! ## Config loader (`load_env_file`, bootstrap.py lines 49-61) -/

/-- The value post-processing `v.strip().strip("'").strip('"')` of
bootstrap.py line 59 (`Char.ofNat 39` is the single quote, `Char.ofNat
34` the double quote). -/
def stripValue (v : List Char) : List Char :=
  pyStripBy (fun c => c = Char.ofNat 34)
    (pyStripBy (fun c => c = Char.ofNat 39) (pyStripBy pyIsSpace v))

/-- One iteration of the `for line in ...` loop of `load_env_file`
(bootstrap.py lines 54-60): `none` when the line is skipped
(`continue`), otherwise the `(key, value)` pair stored into the dict.
The first `=` splits key from value (`s.split("=", 1)`). -/
def parseLine (line : String) : Option (String × String) :=
  let s := pyStripBy pyIsSpace line.data
  if s = [] then none
  else if s.head? = some '#' then none
  else if ¬ s.contains '=' then none
  else
    let k := s.takeWhile (fun c => c ≠ '=')
    let v := (s.dropWhile (fun c => c ≠ '=')).tail
    some (⟨pyStripBy pyIsSpace k⟩, ⟨stripValue v⟩)

/-- Python dict assignment `m[k] = v`: replace the existing binding in
place, or append a fresh one. -/
def dictSet : List (String × String) → String → String → List (String × String)
  | [], k, v => [(k, v)]
  | (k', v') :: t, k, v =>
    if k' = k then (k, v) :: t else (k', v') :: dictSet t k v

/-- Python dict lookup (bindings are unique, so first match suffices). -/
def dictFind : List (String × String) → String → Option String
  | [], _ => none
  | (k', v') :: t, k => if k' = k then some v' else dictFind t k

/-- Python `m.get(k, d)`. -/
def dictGet (m : List (String × String)) (k d : String) : String :=
  (dictFind m k).getD d

/-- The parsing loop of `load_env_file`, threading the dict `m`. -/
def load_env_lines (m : List (String × String)) : List String → List (String × String)
  | [] => m
  | line :: rest =>
    load_env_lines
      (match parseLine line with
        | none => m
        | some (k, v) => dictSet m k v)
      rest

/-- `load_env_file` (bootstrap.py lines 49-61).  The file is modelled as
`Option (List String)`: `none` when `p.exists()` is false (yielding the
empty dict), `some ls` for a present file already split into lines. -/
def load_env_file (file : Option (List String)) : List (String × String) :=
  match file with
  | none => []
  | some ls => load_env_lines [] ls

/-! ## Filesystem and subprocess model

The filesystem is a finite map from path strings to file contents,
reusing the association-list operations above.  A subprocess invocation
is a `Cmd` (argv, optional working directory, whether bytes are fed on
stdin); an `Exec` oracle supplies each command's exit code, its effect
on the filesystem, and the contents downloaded-and-extracted from a
URL (`fetch url = none` models a download or extraction failure). -/

abbrev FS := List (String × String)

def pathExists (fs : FS) (p : String) : Bool :=
  (dictFind fs p).isSome

structure Cmd where
  argv : List String
  cwd : Option String
  hasInput : Bool
deriving DecidableEq

structure Exec where
  exitCode : Cmd → Nat
  applyFS : Cmd → FS → FS
  fetch : String → Option (List (String × String))

/-- Outcome of a step: the subprocess trace in invocation order, the
resulting filesystem, and whether an exception propagated out. -/
structure StepResult where
  trace : List Cmd
  fs : FS
  failed : Bool
deriving DecidableEq

/-- A chain of `run_checked` calls (bootstrap.py lines 25-44): each
command is spawned (recorded and its filesystem effect applied), and a
non-zero exit raises, aborting the remaining commands. -/
def runSeq (ex : Exec) : List Cmd → FS → List Cmd → StepResult
  | [], fs, tr => ⟨tr, fs, false⟩
  | c :: cs, fs, tr =>
    let fs' := ex.applyFS c fs
    if ex.exitCode c ≠ 0 then ⟨tr ++ [c], fs', true⟩
    else runSeq ex cs fs' (tr ++ [c])

/-! ## Path helpers (bootstrap.py lines 73-78)

Path joining is modelled with `/` separators; on Windows the source
joins with `\`, which only renames paths uniformly and affects no
claim. -/

def flutter_bin (win : Bool) (flutter_root : String) : String :=
  flutter_root ++ "/bin/" ++ (if win then "flutter.bat" else "flutter")

def sdkmanager_bin (win : Bool) (android_sdk : String) : String :=
  android_sdk ++ "/cmdline-tools/latest/bin/" ++
    (if win then "sdkmanager.bat" else "sdkmanager")

/-! ## PrerequisiteCheck (`ensure_prereqs`, bootstrap.py lines 84-97) -/

/-- The exact message of the `SystemExit` at bootstrap.py line 87. -/
def gitMissingMsg : String :=
  "Git not found. Install Git and re-run.\nWindows: winget install -e --id Git.Git\nLinux: sudo apt install git"

/-- The exact message of the `SystemExit` at bootstrap.py line 97. -/
def javaMissingMsg : String :=
  "Java 17 not found on PATH. Install JDK 17 and re-run.\nLinux: sudo apt install openjdk-17-jdk"

/-- The winget invocation at bootstrap.py line 93. -/
def wingetJdkCmd : Cmd :=
  ⟨["winget", "install", "-e", "--id", "Microsoft.OpenJDK.17", "--silent",
    "--accept-package-agreements", "--accept-source-agreements"], none, false⟩

/-- Host state consulted by `ensure_prereqs`: OS family, which commands
`shutil.which` resolves before the step runs, and whether `java`
resolves after the winget install attempt (irrelevant when no attempt
is made, since nothing else mutates PATH). -/
structure Sys where
  win : Bool
  haveGit : Bool
  haveJava : Bool
  haveWinget : Bool
  haveJavaAfterInstall : Bool
deriving DecidableEq

/-- `ensure_prereqs` (bootstrap.py lines 84-97): trace of spawned
commands plus the `SystemExit` message, if any.  The `try/except:
pass` around the winget invocation swallows its failure, so its exit
code is never consulted. -/
def ensure_prereqs (sys : Sys) : List Cmd × Option String :=
  if ¬ sys.haveGit then ([], some gitMissingMsg)
  else if ¬ sys.haveJava then
    let attempt := sys.win && sys.haveWinget
    let tr := if attempt then [wingetJdkCmd] else []
    let javaNow := if attempt then sys.haveJavaAfterInstall else sys.haveJava
    if ¬ javaNow then (tr, some javaMissingMsg) else (tr, none)
  else ([], none)

/-- Naive substring test, used only in theorem statements about
remediation messages. -/
def containsSub (s sub : String) : Bool :=
  (List.range (s.data.length + 1)).any fun i => List.isPrefixOf sub.data (s.data.drop i)

/-! ## VersionControlledToolInstall (`install_flutter`, bootstrap.py lines 99-113) -/

def flutterRepoUrl : String := "https://github.com/flutter/flutter"

/-- `install_flutter`: skip when the flutter executable already exists;
otherwise clone (ref branch: default-branch clone, then fetch + checkout
of the ref; else a direct `-b channel` clone).  The
`flutter_root.parent.mkdir` of line 107 is a no-op in the files-only
filesystem model. -/
def install_flutter (win : Bool) (ex : Exec) (env_map : List (String × String))
    (flutter_root : String) (fs : FS) : StepResult :=
  let flutter_exe := flutter_bin win flutter_root
  if pathExists fs flutter_exe then ⟨[], fs, false⟩
  else
    let channel := dictGet env_map "FLUTTER_CHANNEL" "stable"
    let ref := pyStripStr (dictGet env_map "FLUTTER_REF" "")
    if ref ≠ "" then
      runSeq ex
        [⟨["git", "clone", "--depth", "1", flutterRepoUrl, flutter_root], none, false⟩,
         ⟨["git", "fetch", "origin", ref, "--depth", "1"], some flutter_root, false⟩,
         ⟨["git", "checkout", ref], some flutter_root, false⟩] fs []
    else
      runSeq ex
        [⟨["git", "clone", "--depth", "1", "-b", channel, flutterRepoUrl, flutter_root],
          none, false⟩] fs []

/-! ## CommandLineToolsInstall (`install_android_cmdline`, bootstrap.py lines 115-139) -/

def cmdline_url (win : Bool) (cmd_ver : String) : String :=
  "https://dl.google.com/android/repository/commandlinetools-" ++
    (if win then "win" else "linux") ++ "-" ++ cmd_ver ++ "_latest.zip"

/-- An archive entry path under the archive's own `cmdline-tools`
wrapper directory, reduced to its path relative to that wrapper;
`none` for entries outside the wrapper (which `src.iterdir()` never
yields, so they are not copied). -/
def wrapperRel (p : String) : Option String :=
  if List.isPrefixOf "cmdline-tools/".data p.data
  then some ⟨p.data.drop "cmdline-tools/".data.length⟩
  else none

/-- The `for item in src.iterdir()` copy loop of bootstrap.py lines
134-139, on the files-only filesystem: `shutil.copytree(...,
dirs_exist_ok=True)` for directories and `shutil.copy2` for files both
amount to per-file overwrite-or-add of each archive file under the
wrapper, placed at `latest/<relative path>`; destination files at other
paths are untouched. -/
def mergeEntries (latest : String) (fs : FS) : List (String × String) → FS
  | [] => fs
  | (p, v) :: rest =>
    match wrapperRel p with
    | some rel => mergeEntries latest (dictSet fs (latest ++ "/" ++ rel) v) rest
    | none => mergeEntries latest fs rest

/-- Outcome of `install_android_cmdline`: URLs downloaded, resulting
filesystem, and whether an exception propagated. -/
structure AcquireResult where
  downloads : List String
  fs : FS
  failed : Bool
deriving DecidableEq

/-- `install_android_cmdline` (bootstrap.py lines 115-139): skip when
the sdkmanager executable already exists; otherwise download the
platform-specific cmdline-tools zip, extract it to a temporary
directory (the `ex.fetch` oracle yields the archive's entries; the
temporary download and extraction live outside the modelled tree and
are discarded), and merge the wrapper's children into
`<sdkRoot>/cmdline-tools/latest/`.  The `mkdir` calls of lines 124-126
are no-ops in the files-only model. -/
def install_android_cmdline (win : Bool) (ex : Exec) (env_map : List (String × String))
    (android_sdk : String) (fs : FS) : AcquireResult :=
  let sdk_mgr := sdkmanager_bin win android_sdk
  if pathExists fs sdk_mgr then ⟨[], fs, false⟩
  else
    let cmd_ver := dictGet env_map "ANDROID_CMDLINE_TOOLS" "11076708"
    let url := cmdline_url win cmd_ver
    match ex.fetch url with
    | none => ⟨[url], fs, true⟩
    | some entries =>
      ⟨[url], mergeEntries (android_sdk ++ "/cmdline-tools/latest") fs entries, false⟩

/-! ## SdkComponentInstall (`install_android_packages`, bootstrap.py lines 141-185)

The environment overlay of lines 142-149 (ANDROID_SDK_ROOT,
ANDROID_HOME, PATH) is passed identically to every spawned command and
is not consulted by any claim, so `Cmd` omits it. -/

/-- The license-acceptance invocation of bootstrap.py line 158, fed
`"y\n" * 200` on stdin. -/
def licensesCmd (win : Bool) (android_sdk : String) : Cmd :=
  ⟨[sdkmanager_bin win android_sdk, "--sdk_root=" ++ android_sdk, "--licenses"],
   none, true⟩

/-- The package-installation invocation of bootstrap.py lines 169-176. -/
def packagesCmd (win : Bool) (env_map : List (String × String))
    (android_sdk : String) : Cmd :=
  ⟨[sdkmanager_bin win android_sdk, "--sdk_root=" ++ android_sdk,
    "platform-tools",
    "platforms;" ++ dictGet env_map "ANDROID_PLATFORM" "android-34",
    "build-tools;" ++ dictGet env_map "ANDROID_BUILD_TOOLS" "34.0.0",
    "cmake;" ++ dictGet env_map "ANDROID_CMAKE" "3.22.1",
    "ndk;" ++ dictGet env_map "ANDROID_NDK" "26.1.10909125"],
   none, false⟩

/-- The `flutter config --android-sdk` invocation of bootstrap.py line 181. -/
def flutterConfigCmd (win : Bool) (android_sdk flutter_root : String) : Cmd :=
  ⟨[flutter_bin win flutter_root, "config", "--android-sdk", android_sdk], none, false⟩

/-- The `flutter precache` invocation of bootstrap.py lines 182-185:
`--android` always, plus `--windows` on windows-family hosts. -/
def flutterPrecacheCmd (win : Bool) (flutter_root : String) : Cmd :=
  ⟨[flutter_bin win flutter_root, "precache", "--android"] ++
    (if win then ["--windows"] else []), none, false⟩

/-- The warning logged at bootstrap.py line 160 (the interpolated
exception text is elided). -/
def licenseWarnMsg : String := "License acceptance had warnings"

/-- Outcome of `install_android_packages`: subprocess trace, resulting
filesystem, warnings written to stderr by the soft-failure handler, and
whether an exception propagated. -/
structure PkgResult where
  trace : List Cmd
  fs : FS
  warnings : List String
  failed : Bool
deriving DecidableEq

/-- `install_android_packages` (bootstrap.py lines 141-185): fatal
`RuntimeError` when sdkmanager is absent; then license acceptance
inside `try/except` (non-zero exit logged as a warning, never
propagated); then the checked chain packages → flutter config →
flutter precache, any failure of which raises immediately. -/
def install_android_packages (win : Bool) (ex : Exec) (env_map : List (String × String))
    (android_sdk flutter_root : String) (fs : FS) : PkgResult :=
  if ¬ pathExists fs (sdkmanager_bin win android_sdk) then ⟨[], fs, [], true⟩
  else
    let lic := licensesCmd win android_sdk
    let fs1 := ex.applyFS lic fs
    let warns := if ex.exitCode lic ≠ 0 then [licenseWarnMsg] else []
    let r := runSeq ex
      [packagesCmd win env_map android_sdk,
       flutterConfigCmd win android_sdk flutter_root,
       flutterPrecacheCmd win flutter_root] fs1 [lic]
    ⟨r.trace, r.fs, warns, r.failed⟩

/-! ## Lemmas about the config loader -/

theorem dictFind_dictSet (m : List (String × String)) (k v p : String) :
    dictFind (dictSet m k v) p = if k = p then some v else dictFind m p := by
  induction m with
  | nil => simp [dictSet, dictFind]
  | cons h t ih =>
    obtain ⟨k', v'⟩ := h
    by_cases h1 : k' = k
    · subst h1
      by_cases h2 : k' = p <;> simp [dictSet, dictFind, h2]
    · by_cases h2 : k' = p
      · subst h2
        have h3 : ¬ k = k' := fun hc => h1 hc.symm
        simp [dictSet, dictFind, h1, h3]
      · simp [dictSet, dictFind, h1, h2, ih]

theorem load_env_lines_append (m : List (String × String)) (a b : List String) :
    load_env_lines m (a ++ b) = load_env_lines (load_env_lines m a) b := by
  induction a generalizing m with
  | nil => simp [load_env_lines]
  | cons l rest ih => simp [load_env_lines, ih]

theorem load_env_lines_no_key (m : List (String × String)) (ls : List String)
    (k : String) (h : ∀ l ∈ ls, ∀ w, parseLine l ≠ some (k, w)) :
    dictFind (load_env_lines m ls) k = dictFind m k := by
  induction ls generalizing m with
  | nil => rfl
  | cons l rest ih =>
    have hl := h l (List.mem_cons_self l rest)
    have hrest : ∀ l' ∈ rest, ∀ w, parseLine l' ≠ some (k, w) :=
      fun l' hm => h l' (List.mem_cons_of_mem l hm)
    cases hp : parseLine l with
    | none => simpa [load_env_lines, hp] using ih _ hrest
    | some kv =>
      obtain ⟨k2, v2⟩ := kv
      have hne : k2 ≠ k := fun hc => hl v2 (by rw [hp, hc])
      simp only [load_env_lines, hp]
      rw [ih _ hrest, dictFind_dictSet]
      simp [hne]

theorem load_env_lines_last (m : List (String × String)) (line : String)
    (post : List String) (k v : String) (hline : parseLine line = some (k, v))
    (hpost : ∀ l ∈ post, ∀ w, parseLine l ≠ some (k, w)) :
    dictFind (load_env_lines m (line :: post)) k = some v := by
  rw [load_env_lines, hline, load_env_lines_no_key _ _ _ hpost, dictFind_dictSet]
  simp

theorem takeWhile_dropWhile_first_eq (a b : List Char) (ha : '=' ∉ a) :
    (a ++ '=' :: b).takeWhile (fun c => c ≠ '=') = a ∧
    (a ++ '=' :: b).dropWhile (fun c => c ≠ '=') = '=' :: b := by
  induction a with
  | nil => simp [List.takeWhile, List.dropWhile]
  | cons c rest ih =>
    have hc : c ≠ '=' := fun hc => ha (hc ▸ List.mem_cons_self c rest)
    have ih' := ih (fun hm => ha (List.mem_cons_of_mem c hm))
    simp only [decide_not] at ih' ⊢
    simp [hc, ih'.1, ih'.2]

/-! ## Theorems for the configuration claims -/

/-- C4: for every key `k` with default `d`, a missing override file
yields the default; a file containing a single well-formed line for `k`
with value `v` makes the steps receive `v` (the steps read the map
through `dictGet`, i.e. Python `env_map.get(k, d)`); and a file with no
line for `k` makes them receive `d`. -/
theorem config_defaults_and_overrides (k d v line : String)
    (pre post ls : List String) :
    dictGet (load_env_file none) k d = d ∧
    (parseLine line = some (k, v) →
      (∀ l ∈ pre, ∀ w, parseLine l ≠ some (k, w)) →
      (∀ l ∈ post, ∀ w, parseLine l ≠ some (k, w)) →
      dictGet (load_env_file (some (pre ++ line :: post))) k d = v) ∧
    ((∀ l ∈ ls, ∀ w, parseLine l ≠ some (k, w)) →
      dictGet (load_env_file (some ls)) k d = d) := by
  refine ⟨rfl, ?_, ?_⟩
  · intro hline _ hpost
    rw [load_env_file, load_env_lines_append, dictGet,
      load_env_lines_last _ _ _ _ _ hline hpost]
    rfl
  · intro hnone
    rw [load_env_file, dictGet, load_env_lines_no_key _ _ _ hnone]
    rfl

/-- C4 witness: `ANDROID_PLATFORM` overridden to `android-35` wins over
the default `android-34`; with no such line (or no file at all) the
default is received. -/
theorem config_defaults_and_overrides_witness :
    dictGet (load_env_file none) "ANDROID_PLATFORM" "android-34" = "android-34" ∧
    dictGet (load_env_file (some ["# pinned", "ANDROID_PLATFORM=android-35", "ANDROID_NDK=26.1.10909125"]))
      "ANDROID_PLATFORM" "android-34" = "android-35" ∧
    dictGet (load_env_file (some ["ANDROID_NDK=26.1.10909125"]))
      "ANDROID_PLATFORM" "android-34" = "android-34" := by
  obtain ⟨h1, h2, h3⟩ := config_defaults_and_overrides "ANDROID_PLATFORM" "android-34"
    "android-35" "ANDROID_PLATFORM=android-35"
    ["# pinned"] ["ANDROID_NDK=26.1.10909125"] ["ANDROID_NDK=26.1.10909125"]
  have hcomment : ∀ l ∈ ["# pinned"], ∀ w,
      parseLine l ≠ some ("ANDROID_PLATFORM", w) := by
    intro l hl w hw
    simp only [List.mem_singleton] at hl
    subst hl
    rw [show parseLine "# pinned" = none from by decide] at hw
    exact Option.noConfusion hw
  have hndk : ∀ l ∈ ["ANDROID_NDK=26.1.10909125"], ∀ w,
      parseLine l ≠ some ("ANDROID_PLATFORM", w) := by
    intro l hl w hw
    simp only [List.mem_singleton] at hl
    subst hl
    rw [show parseLine "ANDROID_NDK=26.1.10909125" =
      some ("ANDROID_NDK", "26.1.10909125") from by decide] at hw
    simp at hw
  exact ⟨h1, h2 (by decide) hcomment hndk, h3 hndk⟩

/-- C10: when the same key appears on several well-formed lines, the
resolved mapping holds the value of the last such line — later dict
assignments silently overwrite earlier ones (`pre` is unrestricted and
may bind `k` arbitrarily often; the loader is a total function, so no
error is raised for the duplicates). -/
theorem config_duplicate_last_wins (k d v line : String) (pre post : List String)
    (hline : parseLine line = some (k, v))
    (hpost : ∀ l ∈ post, ∀ w, parseLine l ≠ some (k, w)) :
    dictGet (load_env_file (some (pre ++ line :: post))) k d = v := by
  rw [load_env_file, load_env_lines_append, dictGet,
    load_env_lines_last _ _ _ _ _ hline hpost]
  rfl

/-- C10 witness: with `ANDROID_PLATFORM` bound twice, the later line
wins. -/
theorem config_duplicate_last_wins_witness :
    dictGet (load_env_file (some ["ANDROID_PLATFORM=android-33", "ANDROID_PLATFORM=android-35"]))
      "ANDROID_PLATFORM" "android-34" = "android-35" := by
  have h := config_duplicate_last_wins "ANDROID_PLATFORM" "android-34" "android-35"
    "ANDROID_PLATFORM=android-35" ["ANDROID_PLATFORM=android-33"] []
    (by decide) (by intro l hl; exact absurd hl (List.not_mem_nil l))
  simpa using h

/-- C8: behaviour of the config loader's line parser, mirroring
bootstrap.py lines 54-60: a blank line (one stripping to empty) or a
comment line contributes no entry; a line with no `=` is skipped (the
parser is total, so nothing is raised); for a line with `=`, the first
`=` splits key from value, the key being whitespace-stripped and the
value stripped of whitespace and surrounding quotes; concretely
`FOO="bar"` resolves key `FOO` to `bar`. -/
theorem parse_line_spec (line : String) (a b : List Char) :
    (pyStripBy pyIsSpace line.data = [] → parseLine line = none) ∧
    ((pyStripBy pyIsSpace line.data).head? = some '#' → parseLine line = none) ∧
    ((pyStripBy pyIsSpace line.data).contains '=' = false → parseLine line = none) ∧
    (pyStripBy pyIsSpace line.data = a ++ '=' :: b → '=' ∉ a →
      (a ++ '=' :: b).head? ≠ some '#' →
      parseLine line = some (⟨pyStripBy pyIsSpace a⟩, ⟨stripValue b⟩)) ∧
    parseLine "FOO=\"bar\"" = some ("FOO", "bar") := by
  refine ⟨?_, ?_, ?_, ?_, by decide⟩
  · intro h; simp [parseLine, h]
  · intro h
    have hne : pyStripBy pyIsSpace line.data ≠ [] := by
      intro hc; rw [hc] at h; exact Option.noConfusion h
    simp [parseLine, hne, h]
  · intro h
    have h' : '=' ∉ pyStripBy pyIsSpace line.data := by simpa using h
    simp [parseLine, h']
  · intro hs ha hh
    have hne : pyStripBy pyIsSpace line.data ≠ [] := by
      rw [hs]; exact List.append_ne_nil_of_right_ne_nil a (List.cons_ne_nil _ _)
    have hmem : (pyStripBy pyIsSpace line.data).contains '=' = true := by
      rw [hs]; simp
    have hh' : ¬ a.head? = some '#' := by
      intro hc
      cases a with
      | nil => exact Option.noConfusion hc
      | cons x xs =>
        apply hh
        simpa using hc
    obtain ⟨htk, hdr⟩ := takeWhile_dropWhile_first_eq a b ha
    rw [parseLine]
    simp only [hs, htk, hdr, hmem]
    simp [hh', show ¬ (a ++ '=' :: b) = [] from hs ▸ hne]

/-- C8 witness: a blank line, a comment line and a line without `=`
parse to nothing; a quoted value is unquoted, with the first `=` doing
the split. -/
theorem parse_line_spec_witness :
    parseLine "   " = none ∧ parseLine "  # comment" = none ∧
    parseLine "malformed line" = none ∧
    parseLine " FOO = \"bar\" " = some ("FOO", "bar") :=
  ⟨(parse_line_spec "   " [] []).1 (by decide),
   (parse_line_spec "  # comment" [] []).2.1 (by decide),
   (parse_line_spec "malformed line" [] []).2.2.1 (by decide),
   ((parse_line_spec " FOO = \"bar\" " "FOO ".data " \"bar\"".data).2.2.2.1
     (by decide) (by decide) (by decide)).trans (by decide)⟩

/-! ## Theorems for the install-step claims -/

/-- C1: when a step's marker path already exists (the flutter executable
for `install_flutter`, the sdkmanager executable for
`install_android_cmdline`), the step returns immediately: no command is
spawned, nothing is downloaded, and the filesystem is returned
unchanged. -/
theorem install_steps_skip_when_marker_present (win : Bool) (ex : Exec)
    (env_map : List (String × String)) (flutter_root android_sdk : String) (fs : FS) :
    (pathExists fs (flutter_bin win flutter_root) = true →
      install_flutter win ex env_map flutter_root fs = ⟨[], fs, false⟩) ∧
    (pathExists fs (sdkmanager_bin win android_sdk) = true →
      install_android_cmdline win ex env_map android_sdk fs = ⟨[], fs, false⟩) := by
  constructor
  · intro h; simp [install_flutter, h]
  · intro h; simp [install_android_cmdline, h]

/-- A subprocess oracle on which every command succeeds without touching
the filesystem and every download fails; used to instantiate witnesses. -/
def exOk : Exec := ⟨fun _ => 0, fun _ fs => fs, fun _ => none⟩

/-- A filesystem already holding both marker executables. -/
def fsMarkers : FS :=
  [("fr/bin/flutter", "bin"), ("sdk/cmdline-tools/latest/bin/sdkmanager", "bin")]

/-- C1 witness: on a populated toolchain directory both steps are
no-ops. -/
theorem install_steps_skip_when_marker_present_witness :
    install_flutter false exOk [] "fr" fsMarkers = ⟨[], fsMarkers, false⟩ ∧
    install_android_cmdline false exOk [] "sdk" fsMarkers = ⟨[], fsMarkers, false⟩ :=
  ⟨(install_steps_skip_when_marker_present false exOk [] "fr" "sdk" fsMarkers).1 (by decide),
   (install_steps_skip_when_marker_present false exOk [] "fr" "sdk" fsMarkers).2 (by decide)⟩

/-- C6: with the marker absent, a non-empty trimmed `FLUTTER_REF` makes
the step clone the default branch at depth 1, then fetch that ref at
depth 1 and check it out — the channel appears in none of the three
commands; an empty ref makes it perform a single depth-1 clone of the
`FLUTTER_CHANNEL` branch. -/
theorem install_flutter_ref_precedence (win : Bool) (ex : Exec)
    (env_map : List (String × String)) (flutter_root : String) (fs : FS)
    (hm : pathExists fs (flutter_bin win flutter_root) = false) :
    (∀ r, pyStripStr (dictGet env_map "FLUTTER_REF" "") = r → r ≠ "" →
      ex.exitCode ⟨["git", "clone", "--depth", "1", flutterRepoUrl, flutter_root], none, false⟩ = 0 →
      ex.exitCode ⟨["git", "fetch", "origin", r, "--depth", "1"], some flutter_root, false⟩ = 0 →
      (install_flutter win ex env_map flutter_root fs).trace =
        [⟨["git", "clone", "--depth", "1", flutterRepoUrl, flutter_root], none, false⟩,
         ⟨["git", "fetch", "origin", r, "--depth", "1"], some flutter_root, false⟩,
         ⟨["git", "checkout", r], some flutter_root, false⟩]) ∧
    (pyStripStr (dictGet env_map "FLUTTER_REF" "") = "" →
      (install_flutter win ex env_map flutter_root fs).trace =
        [⟨["git", "clone", "--depth", "1", "-b", dictGet env_map "FLUTTER_CHANNEL" "stable",
           flutterRepoUrl, flutter_root], none, false⟩]) := by
  constructor
  · intro r hr hne h1 h2
    subst hr
    by_cases h3 : ex.exitCode ⟨["git", "checkout",
        pyStripStr (dictGet env_map "FLUTTER_REF" "")], some flutter_root, false⟩ = 0 <;>
      simp [install_flutter, hm, hne, runSeq, h1, h2, h3]
  · intro h0
    by_cases h1 : ex.exitCode ⟨["git", "clone", "--depth", "1", "-b",
        dictGet env_map "FLUTTER_CHANNEL" "stable", flutterRepoUrl, flutter_root],
        none, false⟩ = 0 <;>
      simp [install_flutter, hm, h0, runSeq, h1]

/-- C6 witness: a whitespace-padded ref is trimmed and drives the
three-command sequence; without a ref the single clone uses the
configured channel. -/
theorem install_flutter_ref_precedence_witness :
    (install_flutter false exOk [("FLUTTER_REF", " v3.22.0 ")] "fr" []).trace =
      [⟨["git", "clone", "--depth", "1", flutterRepoUrl, "fr"], none, false⟩,
       ⟨["git", "fetch", "origin", "v3.22.0", "--depth", "1"], some "fr", false⟩,
       ⟨["git", "checkout", "v3.22.0"], some "fr", false⟩] ∧
    (install_flutter false exOk [("FLUTTER_CHANNEL", "beta")] "fr" []).trace =
      [⟨["git", "clone", "--depth", "1", "-b", "beta", flutterRepoUrl, "fr"], none, false⟩] := by
  constructor
  · exact (install_flutter_ref_precedence false exOk [("FLUTTER_REF", " v3.22.0 ")]
      "fr" [] (by decide)).1 "v3.22.0" (by decide) (by decide) rfl rfl
  · have h := (install_flutter_ref_precedence false exOk [("FLUTTER_CHANNEL", "beta")]
      "fr" [] (by decide)).2 (by decide)
    rw [h]
    decide

/-! ## Distinctness of the SdkComponentInstall commands -/

theorem flutterConfig_ne_licenses (win : Bool) (a f : String) :
    flutterConfigCmd win a f ≠ licensesCmd win a := by
  simp [flutterConfigCmd, licensesCmd]

theorem flutterConfig_ne_packages (win : Bool) (e : List (String × String)) (a f : String) :
    flutterConfigCmd win a f ≠ packagesCmd win e a := by
  intro h
  have := congrArg (fun c => c.argv.length) h
  simp [flutterConfigCmd, packagesCmd] at this

theorem precache_ne_licenses (win : Bool) (a f : String) :
    flutterPrecacheCmd win f ≠ licensesCmd win a := by
  simp [flutterPrecacheCmd, licensesCmd]

theorem precache_ne_packages (win : Bool) (e : List (String × String)) (a f : String) :
    flutterPrecacheCmd win f ≠ packagesCmd win e a := by
  intro h
  have := congrArg (fun c => c.argv.length) h
  cases win <;> simp [flutterPrecacheCmd, packagesCmd] at this

/-- C2: when the package-installation invocation exits non-zero, the
step raises (`failed = true`) right after it: the trace is exactly
license acceptance followed by the failed package installation, and
neither the `flutter config` nor the `flutter precache` invocation is
ever attempted. -/
theorem sdk_packages_failure_aborts (win : Bool) (ex : Exec)
    (env_map : List (String × String)) (android_sdk flutter_root : String) (fs : FS)
    (hm : pathExists fs (sdkmanager_bin win android_sdk) = true)
    (hfail : ex.exitCode (packagesCmd win env_map android_sdk) ≠ 0) :
    (install_android_packages win ex env_map android_sdk flutter_root fs).trace =
      [licensesCmd win android_sdk, packagesCmd win env_map android_sdk] ∧
    (install_android_packages win ex env_map android_sdk flutter_root fs).failed = true ∧
    flutterConfigCmd win android_sdk flutter_root ∉
      (install_android_packages win ex env_map android_sdk flutter_root fs).trace ∧
    flutterPrecacheCmd win flutter_root ∉
      (install_android_packages win ex env_map android_sdk flutter_root fs).trace := by
  refine ⟨?_, ?_, ?_, ?_⟩ <;>
    simp [install_android_packages, hm, runSeq, hfail,
      flutterConfig_ne_licenses, flutterConfig_ne_packages,
      precache_ne_licenses, precache_ne_packages]

/-- Oracle failing exactly the package-installation invocation of the
concrete SDK layout used in witnesses. -/
def exPkgFail : Exec :=
  ⟨fun c => if c = packagesCmd false [] "sdk" then 1 else 0, fun _ fs => fs, fun _ => none⟩

/-- A filesystem holding the sdkmanager marker for SDK root `sdk`. -/
def fsSdk : FS := [("sdk/cmdline-tools/latest/bin/sdkmanager", "bin")]

/-- C2 witness: a failing package installation leaves exactly two
spawned commands and aborts. -/
theorem sdk_packages_failure_aborts_witness :
    (install_android_packages false exPkgFail [] "sdk" "fr" fsSdk).trace =
      [licensesCmd false "sdk", packagesCmd false [] "sdk"] ∧
    (install_android_packages false exPkgFail [] "sdk" "fr" fsSdk).failed = true ∧
    flutterConfigCmd false "sdk" "fr" ∉
      (install_android_packages false exPkgFail [] "sdk" "fr" fsSdk).trace ∧
    flutterPrecacheCmd false "fr" ∉
      (install_android_packages false exPkgFail [] "sdk" "fr" fsSdk).trace :=
  sdk_packages_failure_aborts false exPkgFail [] "sdk" "fr" fsSdk (by decide) (by decide)

/-- C3: a non-zero exit of the license-acceptance invocation is captured
inside the step: the warning is logged, the package installation is
still attempted immediately afterwards, and if the three checked
invocations succeed the step finishes without error. -/
theorem license_failure_soft (win : Bool) (ex : Exec)
    (env_map : List (String × String)) (android_sdk flutter_root : String) (fs : FS)
    (hm : pathExists fs (sdkmanager_bin win android_sdk) = true)
    (hlic : ex.exitCode (licensesCmd win android_sdk) ≠ 0) :
    (install_android_packages win ex env_map android_sdk flutter_root fs).warnings =
      [licenseWarnMsg] ∧
    (install_android_packages win ex env_map android_sdk flutter_root fs).trace.take 2 =
      [licensesCmd win android_sdk, packagesCmd win env_map android_sdk] ∧
    (ex.exitCode (packagesCmd win env_map android_sdk) = 0 →
     ex.exitCode (flutterConfigCmd win android_sdk flutter_root) = 0 →
     ex.exitCode (flutterPrecacheCmd win flutter_root) = 0 →
     (install_android_packages win ex env_map android_sdk flutter_root fs).failed = false) := by
  refine ⟨?_, ?_, ?_⟩
  · simp [install_android_packages, hm, hlic]
  · by_cases h1 : ex.exitCode (packagesCmd win env_map android_sdk) = 0 <;>
      by_cases h2 : ex.exitCode (flutterConfigCmd win android_sdk flutter_root) = 0 <;>
      by_cases h3 : ex.exitCode (flutterPrecacheCmd win flutter_root) = 0 <;>
      simp [install_android_packages, hm, runSeq, h1, h2, h3]
  · intro h1 h2 h3
    simp [install_android_packages, hm, runSeq, h1, h2, h3]

/-- Oracle failing exactly the license-acceptance invocation of the
concrete SDK layout used in witnesses. -/
def exLicFail : Exec :=
  ⟨fun c => if c = licensesCmd false "sdk" then 1 else 0, fun _ fs => fs, fun _ => none⟩

/-- C3 witness: with only the license step failing, the warning is
logged, packages are still installed and the step succeeds. -/
theorem license_failure_soft_witness :
    (install_android_packages false exLicFail [] "sdk" "fr" fsSdk).warnings =
      [licenseWarnMsg] ∧
    (install_android_packages false exLicFail [] "sdk" "fr" fsSdk).trace.take 2 =
      [licensesCmd false "sdk", packagesCmd false [] "sdk"] ∧
    (install_android_packages false exLicFail [] "sdk" "fr" fsSdk).failed = false := by
  have h := license_failure_soft false exLicFail [] "sdk" "fr" fsSdk (by decide) (by decide)
  exact ⟨h.1, h.2.1, h.2.2 (by decide) (by decide) (by decide)⟩

/-- C9: under a present marker and succeeding invocations the step's
last spawned command is the precache invocation, whose flag set always
contains `--android` and contains `--windows` exactly on windows-family
hosts. -/
theorem precache_flags (win : Bool) (ex : Exec)
    (env_map : List (String × String)) (android_sdk flutter_root : String) (fs : FS)
    (hm : pathExists fs (sdkmanager_bin win android_sdk) = true)
    (h1 : ex.exitCode (packagesCmd win env_map android_sdk) = 0)
    (h2 : ex.exitCode (flutterConfigCmd win android_sdk flutter_root) = 0)
    (h3 : ex.exitCode (flutterPrecacheCmd win flutter_root) = 0) :
    (install_android_packages win ex env_map android_sdk flutter_root fs).trace =
      [licensesCmd win android_sdk, packagesCmd win env_map android_sdk,
       flutterConfigCmd win android_sdk flutter_root, flutterPrecacheCmd win flutter_root] ∧
    "--android" ∈ (flutterPrecacheCmd win flutter_root).argv ∧
    ("--windows" ∈ (flutterPrecacheCmd win flutter_root).argv ↔ win = true) := by
  refine ⟨?_, ?_, ?_⟩
  · simp [install_android_packages, hm, runSeq, h1, h2, h3]
  · cases win <;> simp [flutterPrecacheCmd]
  · cases win <;> simp [flutterPrecacheCmd]
    intro h
    have hl := congrArg String.length h
    simp [flutter_bin, String.length_append] at hl
    rw [show ("--windows" : String).length = 9 from rfl,
      show ("/bin/" : String).length = 5 from rfl,
      show ("flutter" : String).length = 7 from rfl] at hl
    omega

/-- A filesystem holding the windows-named sdkmanager marker. -/
def fsSdkWin : FS := [("sdk/cmdline-tools/latest/bin/sdkmanager.bat", "bin")]

/-- C9 witness: on a windows-family host the final precache invocation
carries both `--android` and `--windows`. -/
theorem precache_flags_witness :
    (install_android_packages true exOk [] "sdk" "fr" fsSdkWin).trace =
      [licensesCmd true "sdk", packagesCmd true [] "sdk",
       flutterConfigCmd true "sdk" "fr", flutterPrecacheCmd true "fr"] ∧
    "--android" ∈ (flutterPrecacheCmd true "fr").argv ∧
    ("--windows" ∈ (flutterPrecacheCmd true "fr").argv ↔ true = true) :=
  precache_flags true exOk [] "sdk" "fr" fsSdkWin (by decide) rfl rfl rfl

/-! ## Lemmas about the merge-on-extract copy loop -/

theorem wrapperRel_eq (q rel : String) (h : wrapperRel q = some rel) :
    q = "cmdline-tools/" ++ rel := by
  unfold wrapperRel at h
  split at h
  case isTrue hp =>
    obtain rfl : rel = ⟨q.data.drop "cmdline-tools/".data.length⟩ := (Option.some.inj h).symm
    have hpre : "cmdline-tools/".data <+: q.data := List.isPrefixOf_iff_prefix.mp hp
    obtain ⟨t, ht⟩ := hpre
    apply String.ext
    rw [String.data_append, ← ht, List.drop_left]
  case isFalse => exact Option.noConfusion h

theorem wrapperRel_append (rel : String) :
    wrapperRel ("cmdline-tools/" ++ rel) = some rel := by
  unfold wrapperRel
  rw [String.data_append, if_pos]
  · rw [List.drop_left' rfl]
  · exact List.isPrefixOf_iff_prefix.mpr ⟨rel.data, rfl⟩

theorem dictFind_mergeEntries (latest : String) (entries : List (String × String))
    (fs : FS) (p : String) :
    dictFind (mergeEntries latest fs entries) p =
      match dictFind (mergeEntries latest [] entries) p with
      | some v => some v
      | none => dictFind fs p := by
  induction entries generalizing fs with
  | nil => simp [mergeEntries, dictFind]
  | cons e rest ih =>
    obtain ⟨q, w⟩ := e
    cases hw : wrapperRel q with
    | none => simp only [mergeEntries, hw]; exact ih fs
    | some rel =>
      simp only [mergeEntries, hw]
      rw [ih (dictSet fs (latest ++ "/" ++ rel) w), ih (dictSet [] (latest ++ "/" ++ rel) w)]
      cases hfind : dictFind (mergeEntries latest [] rest) p with
      | some v => simp
      | none =>
        simp only
        rw [dictFind_dictSet, dictFind_dictSet]
        by_cases hp : latest ++ "/" ++ rel = p
        · simp [hp]
        · simp [hp, dictFind]

theorem mergeEntries_source (latest : String) (entries : List (String × String))
    (fs : FS) (p v : String)
    (h : dictFind (mergeEntries latest fs entries) p = some v) :
    dictFind fs p = some v ∨
      ∃ rel, p = latest ++ "/" ++ rel ∧ ("cmdline-tools/" ++ rel, v) ∈ entries := by
  induction entries generalizing fs with
  | nil => exact Or.inl h
  | cons e rest ih =>
    obtain ⟨q, w⟩ := e
    cases hw : wrapperRel q with
    | none =>
      rcases ih _ (by simpa [mergeEntries, hw] using h) with h' | ⟨rel, hrel, hmem⟩
      · exact Or.inl h'
      · exact Or.inr ⟨rel, hrel, List.mem_cons_of_mem _ hmem⟩
    | some rel =>
      have h' : dictFind (mergeEntries latest
          (dictSet fs (latest ++ "/" ++ rel) w) rest) p = some v := by
        simpa [mergeEntries, hw] using h
      rcases ih _ h' with h'' | ⟨rel', hrel', hmem'⟩
      · rw [dictFind_dictSet] at h''
        by_cases hp : latest ++ "/" ++ rel = p
        · rw [if_pos hp] at h''
          obtain rfl : w = v := Option.some.inj h''
          refine Or.inr ⟨rel, hp.symm, ?_⟩
          rw [← wrapperRel_eq q rel hw]
          exact List.mem_cons_self _ _
        · rw [if_neg hp] at h''
          exact Or.inl h''
      · exact Or.inr ⟨rel', hrel', List.mem_cons_of_mem _ hmem'⟩

theorem mergeEntries_mono (latest : String) (entries : List (String × String))
    (fs : FS) (p : String) (h : (dictFind fs p).isSome = true) :
    (dictFind (mergeEntries latest fs entries) p).isSome = true := by
  rw [dictFind_mergeEntries]
  cases dictFind (mergeEntries latest [] entries) p <;> simp [h]

theorem mergeEntries_adds (latest : String) (entries : List (String × String))
    (fs : FS) (rel v : String) (h : ("cmdline-tools/" ++ rel, v) ∈ entries) :
    (dictFind (mergeEntries latest fs entries) (latest ++ "/" ++ rel)).isSome = true := by
  induction entries generalizing fs with
  | nil => exact absurd h (List.not_mem_nil _)
  | cons e rest ih =>
    obtain ⟨q, w⟩ := e
    rcases List.mem_cons.mp h with heq | hmem
    · obtain ⟨hq, hv⟩ := Prod.mk.injEq .. ▸ heq.symm
      subst hq
      simp only [mergeEntries, wrapperRel_append]
      apply mergeEntries_mono
      rw [dictFind_dictSet]
      simp
    · cases hw : wrapperRel q with
      | none => simp only [mergeEntries, hw]; exact ih _ hmem
      | some rel' => simp only [mergeEntries, hw]; exact ih _ hmem

/-- C5: with the sdkmanager marker absent and the archive fetched, the
resulting tree is the union of the pre-existing files and the archive's
wrapper children placed under `<sdkRoot>/cmdline-tools/latest/`: (1)
each path resolves to the archive's file when the archive provides one
at that relative path and to the untouched pre-existing file otherwise
(so an unrelated `README` survives); (2) every file of the result comes
either from the pre-existing tree or from an archive entry under the
`cmdline-tools` wrapper, re-rooted one level down; (3) every archive
entry under the wrapper ends up present at its re-rooted path. -/
theorem cmdline_merge_union (win : Bool) (ex : Exec) (env_map : List (String × String))
    (android_sdk : String) (fs : FS) (entries : List (String × String))
    (hm : pathExists fs (sdkmanager_bin win android_sdk) = false)
    (hf : ex.fetch (cmdline_url win (dictGet env_map "ANDROID_CMDLINE_TOOLS" "11076708")) =
      some entries) :
    (∀ p, dictFind (install_android_cmdline win ex env_map android_sdk fs).fs p =
      match dictFind (mergeEntries (android_sdk ++ "/cmdline-tools/latest") [] entries) p with
      | some v => some v
      | none => dictFind fs p) ∧
    (∀ p v, dictFind (install_android_cmdline win ex env_map android_sdk fs).fs p = some v →
      dictFind fs p = some v ∨
        ∃ rel, p = android_sdk ++ "/cmdline-tools/latest" ++ "/" ++ rel ∧
          ("cmdline-tools/" ++ rel, v) ∈ entries) ∧
    (∀ rel v, ("cmdline-tools/" ++ rel, v) ∈ entries →
      (dictFind (install_android_cmdline win ex env_map android_sdk fs).fs
        (android_sdk ++ "/cmdline-tools/latest" ++ "/" ++ rel)).isSome = true) := by
  have hfs : (install_android_cmdline win ex env_map android_sdk fs).fs =
      mergeEntries (android_sdk ++ "/cmdline-tools/latest") fs entries := by
    simp [install_android_cmdline, hm, hf]
  refine ⟨fun p => ?_, fun p v h => ?_, fun rel v h => ?_⟩
  · rw [hfs]; exact dictFind_mergeEntries _ _ _ _
  · rw [hfs] at h; exact mergeEntries_source _ _ _ _ _ h
  · rw [hfs]; exact mergeEntries_adds _ _ _ _ _ h

/-- The archive entries of the merge witness: the wrapper directory
holding `bin/`, `lib/` and `NOTICE`. -/
def entriesDemo : List (String × String) :=
  [("cmdline-tools/bin/sdkmanager", "B"), ("cmdline-tools/lib/x", "L"),
   ("cmdline-tools/NOTICE", "N")]

/-- Oracle whose every download-and-extract yields `entriesDemo`. -/
def exFetchDemo : Exec := ⟨fun _ => 0, fun _ fs => fs, fun _ => some entriesDemo⟩

/-- A destination already holding an unrelated `README` under
`cmdline-tools/latest/`. -/
def fsReadme : FS := [("sdk/cmdline-tools/latest/README", "keep")]

/-- C5 witness: after the merge the pre-existing `README` is preserved
and the archive's `NOTICE` was added next to it. -/
theorem cmdline_merge_union_witness :
    dictFind (install_android_cmdline false exFetchDemo [] "sdk" fsReadme).fs
      "sdk/cmdline-tools/latest/README" = some "keep" ∧
    (dictFind (install_android_cmdline false exFetchDemo [] "sdk" fsReadme).fs
      ("sdk" ++ "/cmdline-tools/latest" ++ "/" ++ "NOTICE")).isSome = true := by
  have h := cmdline_merge_union false exFetchDemo [] "sdk" fsReadme entriesDemo
    (by decide) rfl
  constructor
  · rw [h.1 "sdk/cmdline-tools/latest/README"]; decide
  · exact h.2.2 "NOTICE" "N" (by decide)

/-- C7 counterexample: when `java` is still absent after the optional
install attempt, the fatal message is bootstrap.py line 97's, which
names the non-windows (`sudo apt install openjdk-17-jdk`) command but
no windows-family install command at all — it contains neither a
`winget` invocation nor a `Windows:` line, so it does not name two
install commands, one per OS family. -/
theorem java_remediation_counterexample :
    (ensure_prereqs ⟨false, true, false, false, false⟩).2 = some javaMissingMsg ∧
    containsSub javaMissingMsg "sudo apt install openjdk-17-jdk" = true ∧
    containsSub javaMissingMsg "winget" = false ∧
    containsSub javaMissingMsg "Windows" = false := by decide

/-- C7 (amended): when `java` is still absent after the optional
windows-only unattended install attempt (whose failure is swallowed
before re-checking), the step fails fatally with remediation text
naming the non-windows-family install command (`sudo apt install
openjdk-17-jdk`); the windows-family install command is not part of the
message, the attempted winget invocation itself being the only
windows-family remediation. -/
theorem java_missing_fatal (sys : Sys)
    (hg : sys.haveGit = true) (hj : sys.haveJava = false)
    (ha : (sys.win && sys.haveWinget) = true → sys.haveJavaAfterInstall = false) :
    (ensure_prereqs sys).2 = some javaMissingMsg ∧
    containsSub javaMissingMsg "sudo apt install openjdk-17-jdk" = true ∧
    containsSub javaMissingMsg "winget" = false ∧
    ((sys.win && sys.haveWinget) = true → (ensure_prereqs sys).1 = [wingetJdkCmd]) := by
  refine ⟨?_, by decide, by decide, ?_⟩
  · by_cases hw : (sys.win && sys.haveWinget) = true
    · simp [ensure_prereqs, hg, hj, hw, ha hw]
    · have hw' : (sys.win && sys.haveWinget) = false := by simpa using hw
      simp [ensure_prereqs, hg, hj, hw']
  · intro hw
    simp [ensure_prereqs, hg, hj, hw, ha hw]

/-- C7 witness (for the amended claim): a windows-family host with
winget available attempts the unattended JDK install and, with `java`
still absent, aborts with the line-97 message. -/
theorem java_missing_fatal_witness :
    (ensure_prereqs ⟨true, true, false, true, false⟩).2 = some javaMissingMsg ∧
    (ensure_prereqs ⟨true, true, false, true, false⟩).1 = [wingetJdkCmd] :=
  ⟨(java_missing_fatal ⟨true, true, false, true, false⟩ rfl rfl fun _ => rfl).1,
   (java_missing_fatal ⟨true, true, false, true, false⟩ rfl rfl fun _ => rfl).2.2.2 rfl⟩

end Bootstrap
